import Mathlib

/-!
# osquery-go config plugin adapter (`config.go`)

A shallow embedding of `configPluginImpl`, the adapter that wraps a
`ConfigPlugin` and exposes the generic osquery plugin surface
(`Name`, `RegistryName`, `Routes`, `Ping`, `Call`, `Shutdown`).

Modelling conventions

* A Go method that may touch the wrapped plugin is a state-passing function
  `σ → result × σ`, where `σ` is the state the plugin's methods read and
  write.  The adapter struct itself holds only the plugin and has no state.
* `context.Context` is an arbitrary type `κ`; the adapter only passes it on.
* A Go `map[string]string` is `Option (List (String × String))`: `none` is
  the nil map, `some kvs` an allocated map listed as key/value pairs, the
  first pair for a key being its binding.
* A Go slice is `Option (List _)`: `none` is the nil slice.
* A Go pointer that is either nil or points to a value is an `Option`.
* A Go `error` value is its `Error()` text; a possibly-nil `error` is an
  `Option GoError`.
* Only returning executions are modelled: a plugin method that panics, or a
  nil plugin interface, has no counterpart here.
-/

namespace Osquery

/-! ## Go values -/

/-- Go `map[string]string`; `none` is the nil map. -/
abbrev GoMap := Option (List (String × String))

/-- The comma-ok lookup `v, ok := m[key]`: `none` when the key is absent
(as it always is in a nil map). -/
def mapLookup (m : GoMap) (key : String) : Option String :=
  match m with
  | none => none
  | some kvs => kvs.lookup key

/-- The index expression `m[key]`: the zero value `""` when the key is
absent. -/
def mapIndex (m : GoMap) (key : String) : String :=
  (mapLookup m key).getD ""

/-- A non-nil Go `error`, reduced to what `Error()` returns. -/
structure GoError where
  Error : String
deriving DecidableEq, Repr

/-! ## Generated envelope types (package `gen/osquery`) -/

/-- Modelled from the spec: `osquery.ExtensionStatus` is generated code outside
`config.go`; the spec gives it a code (0 success, non-zero failure) and a
human-readable message.  `Code` is an `int32` in Go; only 0 and 1 occur. -/
structure ExtensionStatus where
  Code : Int
  Message : String
deriving DecidableEq, Repr

/-- Modelled from the spec: `osquery.ExtensionPluginRequest`, a
`map[string]string`. -/
abbrev ExtensionPluginRequest := GoMap

/-- Modelled from the spec: `osquery.ExtensionPluginResponse`, a slice of
`map[string]string`; `none` is the nil slice. -/
abbrev ExtensionPluginResponse := Option (List GoMap)

/-- Number of elements of a response slice (`len`), 0 for the nil slice. -/
def responseLen (r : ExtensionPluginResponse) : Nat :=
  match r with
  | none => 0
  | some ms => ms.length

/-- Modelled from the spec: `osquery.ExtensionResponse`, a `Status` pointer
(`none` is nil) and a `Response` slice. -/
structure ExtensionResponse where
  Status : Option ExtensionStatus
  Response : ExtensionPluginResponse
deriving DecidableEq, Repr

/-- Modelled from the spec: the package-level variable `StatusOK` is declared
outside `config.go`.  The spec describes it as the canonical OK status with
code 0 and an empty/neutral message; the message text is left open and is the
argument `okMessage`. -/
def StatusOK (okMessage : String) : ExtensionStatus :=
  { Code := 0, Message := okMessage }

/-! ## `config.go` -/

/-- The `ConfigPlugin` interface: `Name()` and `GenerateConfigs(ctx)`, each
run against the plugin state `σ`.  `GenerateConfigs` returns the Go pair
`(map[string]string, error)`. -/
structure ConfigPlugin (κ σ : Type) where
  Name : σ → String × σ
  GenerateConfigs : κ → σ → (GoMap × Option GoError) × σ

/-- The struct `configPluginImpl`: one field, the wrapped plugin. -/
structure configPluginImpl (κ σ : Type) where
  plugin : ConfigPlugin κ σ

/-- `NewConfigPlugin(plugin)` returns `&configPluginImpl{plugin}`. -/
def NewConfigPlugin {κ σ : Type} (plugin : ConfigPlugin κ σ) : configPluginImpl κ σ :=
  { plugin := plugin }

/-- Registry name for config plugins. -/
def configRegistryName : String := "config"

/-- Key that the request method is stored under. -/
def requestActionKey : String := "action"

/-- Action value used when config is requested. -/
def genConfigAction : String := "genConfig"

/-- `func (t *configPluginImpl) Name() string`. -/
def configPluginImpl.Name {κ σ : Type} (t : configPluginImpl κ σ) (s : σ) : String × σ :=
  t.plugin.Name s

/-- `func (t *configPluginImpl) RegistryName() string`. -/
def configPluginImpl.RegistryName {κ σ : Type} (_t : configPluginImpl κ σ) (s : σ) :
    String × σ :=
  (configRegistryName, s)

/-- `func (t *configPluginImpl) Routes() osquery.ExtensionPluginResponse`:
the composite literal `osquery.ExtensionPluginResponse{}`, an allocated slice
of length 0. -/
def configPluginImpl.Routes {κ σ : Type} (_t : configPluginImpl κ σ) (s : σ) :
    ExtensionPluginResponse × σ :=
  (some [], s)

/-- `func (t *configPluginImpl) Ping() osquery.ExtensionStatus`. -/
def configPluginImpl.Ping {κ σ : Type} (_t : configPluginImpl κ σ) (okMessage : String)
    (s : σ) : ExtensionStatus × σ :=
  (StatusOK okMessage, s)

/-- `func (t *configPluginImpl) Call(ctx, request) osquery.ExtensionResponse`:
a `switch` on `request[requestActionKey]` with the single case
`genConfigAction` and a `default`. -/
def configPluginImpl.Call {κ σ : Type} (t : configPluginImpl κ σ) (okMessage : String)
    (ctx : κ) (request : ExtensionPluginRequest) (s : σ) : ExtensionResponse × σ :=
  if mapIndex request requestActionKey = genConfigAction then
    match t.plugin.GenerateConfigs ctx s with
    | ((configs, err), s') =>
      match err with
      | some e =>
        ({ Status := some { Code := 1, Message := "error getting config: " ++ e.Error },
           Response := none }, s')
      | none =>
        ({ Status := some (StatusOK okMessage), Response := some [configs] }, s')
  else
    ({ Status := some { Code := 1, Message := "unknown action: " ++ mapIndex request "action" },
       Response := none }, s)

/-- `func (t *configPluginImpl) Shutdown() {}`. -/
def configPluginImpl.Shutdown {κ σ : Type} (_t : configPluginImpl κ σ) (s : σ) : Unit × σ :=
  ((), s)

/-! ## The host side: successive calls, and a plugin that records its invocations -/

/-- A host issuing the given `Call`s one after the other, each starting from
the state the previous one left; returns the envelopes in order. -/
def runCalls {κ σ : Type} (t : configPluginImpl κ σ) (okMessage : String) :
    List (κ × ExtensionPluginRequest) → σ → List ExtensionResponse × σ
  | [], s => ([], s)
  | (ctx, request) :: rest, s =>
    match t.Call okMessage ctx request s with
    | (r, s') =>
      match runCalls t okMessage rest s' with
      | (rs, s'') => (r :: rs, s'')

/-- One invocation of a method of the wrapped plugin. -/
inductive Invocation (κ : Type) where
  | name : Invocation κ
  | generateConfigs (ctx : κ) : Invocation κ
deriving DecidableEq, Repr

/-- The plugin `p` instrumented to append every invocation of one of its
methods to a log kept next to its own state. -/
def recording {κ σ : Type} (p : ConfigPlugin κ σ) : ConfigPlugin κ (σ × List (Invocation κ)) where
  Name := fun w =>
    match p.Name w.1 with
    | (n, s') => (n, (s', w.2 ++ [Invocation.name]))
  GenerateConfigs := fun ctx w =>
    match p.GenerateConfigs ctx w.1 with
    | (out, s') => (out, (s', w.2 ++ [Invocation.generateConfigs ctx]))

/-- How many `GenerateConfigs` invocations a log holds. -/
def generateCount {κ : Type} : List (Invocation κ) → Nat
  | [] => 0
  | Invocation.name :: rest => generateCount rest
  | Invocation.generateConfigs _ :: rest => generateCount rest + 1

/-- A sample plugin over a counter state: every `GenerateConfigs` bumps the
counter; it succeeds with one source when the counter is even and fails with
`"boom"` when it is odd. -/
def samplePlugin : ConfigPlugin Nat Nat where
  Name := fun s => ("sample", s)
  GenerateConfigs := fun _ctx s =>
    if s % 2 = 0 then ((some [("main", "\x7b\x7d")], none), s + 1)
    else ((none, some { Error := "boom" }), s + 1)

/-- A sample plugin whose `GenerateConfigs` counts its runs in the state and
returns the same two sources every time. -/
def steadyPlugin : ConfigPlugin Nat Nat where
  Name := fun s => ("steady", s)
  GenerateConfigs := fun _ctx s =>
    ((some [("main", "\x7b\x7d"), ("extra", "")], none), s + 1)

/-! ## Auxiliary facts -/

section Auxiliary

variable {κ σ : Type}

/-- Indexing yields `"genConfig"` exactly when the key is present with that
value: the zero value `""` is a different string. -/
theorem mapIndex_eq_genConfig_iff (m : GoMap) (key : String) :
    mapIndex m key = "genConfig" ↔ mapLookup m key = some "genConfig" := by
  unfold mapIndex
  cases h : mapLookup m key with
  | none => simp
  | some v => simp

/-- Unfolding of `Call` on the `genConfigAction` case of the switch. -/
theorem call_genConfig (t : configPluginImpl κ σ) (okMessage : String) (ctx : κ)
    (request : ExtensionPluginRequest) (s : σ)
    (h : mapLookup request "action" = some "genConfig") :
    t.Call okMessage ctx request s =
      match (t.plugin.GenerateConfigs ctx s).1.2 with
      | some e =>
        ({ Status := some { Code := 1, Message := "error getting config: " ++ e.Error },
           Response := none }, (t.plugin.GenerateConfigs ctx s).2)
      | none =>
        ({ Status := some (StatusOK okMessage),
           Response := some [(t.plugin.GenerateConfigs ctx s).1.1] },
         (t.plugin.GenerateConfigs ctx s).2) := by
  have hi : mapIndex request requestActionKey = genConfigAction :=
    (mapIndex_eq_genConfig_iff request "action").2 h
  unfold configPluginImpl.Call
  rw [if_pos hi]

/-- Unfolding of `Call` on the `default` case of the switch. -/
theorem call_default (t : configPluginImpl κ σ) (okMessage : String) (ctx : κ)
    (request : ExtensionPluginRequest) (s : σ)
    (h : mapLookup request "action" ≠ some "genConfig") :
    t.Call okMessage ctx request s =
      ({ Status := some { Code := 1,
                          Message := "unknown action: " ++ (mapLookup request "action").getD "" },
         Response := none }, s) := by
  have hi : ¬ mapIndex request requestActionKey = genConfigAction := fun hc =>
    h ((mapIndex_eq_genConfig_iff request "action").1 hc)
  unfold configPluginImpl.Call
  rw [if_neg hi]
  rfl

/-- State and log after one `Call` on an instrumented plugin. -/
theorem call_recording_snd (p : ConfigPlugin κ σ) (okMessage : String) (ctx : κ)
    (request : ExtensionPluginRequest) (s : σ) (log : List (Invocation κ)) :
    ((NewConfigPlugin (recording p)).Call okMessage ctx request (s, log)).2 =
      if mapLookup request "action" = some "genConfig" then
        ((p.GenerateConfigs ctx s).2, log ++ [Invocation.generateConfigs ctx])
      else (s, log) := by
  by_cases h : mapLookup request "action" = some "genConfig"
  · rw [if_pos h, call_genConfig _ _ _ _ _ h]
    simp only [NewConfigPlugin, recording]
    cases (p.GenerateConfigs ctx s).1.2 <;> rfl
  · rw [if_neg h, call_default _ _ _ _ _ h]

/-- Instrumenting the plugin does not change the envelope `Call` returns. -/
theorem call_recording_fst (p : ConfigPlugin κ σ) (okMessage : String) (ctx : κ)
    (request : ExtensionPluginRequest) (s : σ) (log : List (Invocation κ)) :
    ((NewConfigPlugin (recording p)).Call okMessage ctx request (s, log)).1 =
      ((NewConfigPlugin p).Call okMessage ctx request s).1 := by
  by_cases h : mapLookup request "action" = some "genConfig"
  · rw [call_genConfig _ _ _ _ _ h, call_genConfig _ _ _ _ _ h]
    simp only [NewConfigPlugin, recording]
    cases (p.GenerateConfigs ctx s).1.2 <;> rfl
  · rw [call_default _ _ _ _ _ h, call_default _ _ _ _ _ h]

/-- Unfolding of `runCalls` on a non-empty sequence. -/
theorem runCalls_cons (t : configPluginImpl κ σ) (okMessage : String) (ctx : κ)
    (request : ExtensionPluginRequest) (rest : List (κ × ExtensionPluginRequest)) (s : σ) :
    runCalls t okMessage ((ctx, request) :: rest) s =
      ((t.Call okMessage ctx request s).1 ::
          (runCalls t okMessage rest (t.Call okMessage ctx request s).2).1,
        (runCalls t okMessage rest (t.Call okMessage ctx request s).2).2) := by
  rfl

/-- `generateCount` over an appended log. -/
theorem generateCount_append (l₁ l₂ : List (Invocation κ)) :
    generateCount (l₁ ++ l₂) = generateCount l₁ + generateCount l₂ := by
  induction l₁ with
  | nil => simp [generateCount]
  | cons a rest ih =>
    cases a with
    | name => simpa [generateCount] using ih
    | generateConfigs c => simp [generateCount, ih]; omega

/-- A log of `GenerateConfigs` invocations only counts as its length. -/
theorem generateCount_map (cs : List (κ × ExtensionPluginRequest)) :
    generateCount (cs.map (fun c => Invocation.generateConfigs c.1)) = cs.length := by
  induction cs with
  | nil => rfl
  | cons c rest ih => simp [generateCount, ih]

/-- The log after a sequence of `Call`s: one `GenerateConfigs` entry, carrying
the context of the call, for each call whose action is `"genConfig"`, in
order, and nothing else. -/
theorem runCalls_recording_log (p : ConfigPlugin κ σ) (okMessage : String)
    (calls : List (κ × ExtensionPluginRequest)) (s : σ) (log : List (Invocation κ)) :
    (runCalls (NewConfigPlugin (recording p)) okMessage calls (s, log)).2.2 =
      log ++ (calls.filter (fun c => decide (mapLookup c.2 "action" = some "genConfig"))).map
        (fun c => Invocation.generateConfigs c.1) := by
  induction calls generalizing s log with
  | nil => simp [runCalls]
  | cons c rest ih =>
    obtain ⟨ctx, request⟩ := c
    rw [runCalls_cons]
    have hs := call_recording_snd p okMessage ctx request s log
    by_cases h : mapLookup request "action" = some "genConfig"
    · rw [if_pos h] at hs
      simp only [hs, ih, List.filter_cons, h, decide_True, if_true, List.map_cons,
        List.append_assoc, List.singleton_append]
    · rw [if_neg h] at hs
      simp only [hs, ih, List.filter_cons, h, decide_False, Bool.false_eq_true, if_false]

end Auxiliary

/-! ## `Call`: the three outcomes -/

section CallOutcomes

variable {κ σ : Type}

/-- C1: for every request whose value under `"action"` is exactly
`"genConfig"` (other keys are unconstrained) and every wrapped plugin whose
`GenerateConfigs` returns the mapping `M` and a nil error, `Call` returns an
envelope whose `Status` is present with code 0 and whose `Response` is the
one-element slice `[M]`, `M` being the very value the plugin returned. -/
theorem call_genConfig_success (p : ConfigPlugin κ σ) (okMessage : String) (ctx : κ)
    (request : ExtensionPluginRequest) (s : σ) (M : GoMap)
    (hact : mapLookup request "action" = some "genConfig")
    (hgen : (p.GenerateConfigs ctx s).1 = (M, none)) :
    (∃ st, ((NewConfigPlugin p).Call okMessage ctx request s).1.Status = some st ∧
        st.Code = 0) ∧
      ((NewConfigPlugin p).Call okMessage ctx request s).1.Response = some [M] := by
  have h2 : ((NewConfigPlugin p).plugin.GenerateConfigs ctx s).1.2 = none := by
    simp [NewConfigPlugin, hgen]
  have h1 : ((NewConfigPlugin p).plugin.GenerateConfigs ctx s).1.1 = M := by
    simp [NewConfigPlugin, hgen]
  rw [call_genConfig _ _ _ _ _ hact, h2, h1]
  exact ⟨⟨StatusOK okMessage, rfl, rfl⟩, rfl⟩

/-- Instance of C1: a request with an extra key, the sample plugin in an even
state. -/
theorem call_genConfig_success_witness :
    mapLookup (some [("verbose", "1"), ("action", "genConfig")]) "action" = some "genConfig" ∧
      (samplePlugin.GenerateConfigs 5 0).1 = (some [("main", "\x7b\x7d")], none) ∧
      (∃ st, ((NewConfigPlugin samplePlugin).Call "OK" 5
            (some [("verbose", "1"), ("action", "genConfig")]) 0).1.Status = some st ∧
          st.Code = 0) ∧
      ((NewConfigPlugin samplePlugin).Call "OK" 5
          (some [("verbose", "1"), ("action", "genConfig")]) 0).1.Response =
        some [some [("main", "\x7b\x7d")]] :=
  ⟨by decide, by decide,
    call_genConfig_success samplePlugin "OK" 5
      (some [("verbose", "1"), ("action", "genConfig")]) 0 (some [("main", "\x7b\x7d")])
      (by decide) (by decide)⟩

/-- C2: for every request whose value under `"action"` is `"genConfig"` and
every wrapped plugin whose `GenerateConfigs` returns a non-nil error `E`
(whatever map comes with it), `Call` returns an envelope whose `Status` has
code 1 and message `"error getting config: "` followed by `E.Error()`, and
whose `Response` is the nil slice. -/
theorem call_genConfig_failure (p : ConfigPlugin κ σ) (okMessage : String) (ctx : κ)
    (request : ExtensionPluginRequest) (s : σ) (E : GoError)
    (hact : mapLookup request "action" = some "genConfig")
    (hgen : (p.GenerateConfigs ctx s).1.2 = some E) :
    ((NewConfigPlugin p).Call okMessage ctx request s).1.Status =
        some { Code := 1, Message := "error getting config: " ++ E.Error } ∧
      ((NewConfigPlugin p).Call okMessage ctx request s).1.Response = none := by
  have h2 : ((NewConfigPlugin p).plugin.GenerateConfigs ctx s).1.2 = some E := hgen
  rw [call_genConfig _ _ _ _ _ hact, h2]
  exact ⟨rfl, rfl⟩

/-- Instance of C2: the sample plugin in an odd state fails with `"boom"`. -/
theorem call_genConfig_failure_witness :
    mapLookup (some [("action", "genConfig")]) "action" = some "genConfig" ∧
      (samplePlugin.GenerateConfigs 5 1).1.2 = some { Error := "boom" } ∧
      ((NewConfigPlugin samplePlugin).Call "OK" 5 (some [("action", "genConfig")]) 1).1.Status =
        some { Code := 1, Message := "error getting config: boom" } ∧
      ((NewConfigPlugin samplePlugin).Call "OK" 5 (some [("action", "genConfig")]) 1).1.Response =
        none :=
  ⟨by decide, by decide,
    call_genConfig_failure samplePlugin "OK" 5 (some [("action", "genConfig")]) 1
      { Error := "boom" } (by decide) (by decide)⟩

/-- C3: for every request whose `"action"` key is absent, maps to `""`, or
maps to any string other than exactly `"genConfig"`, `Call` returns an
envelope whose `Status` has code 1 and message `"unknown action: "` followed
by the raw action value (`""` when the key is absent), whose `Response` is the
nil slice, and the plugin state is left as it was: the plugin is not
consulted, so nothing it would return matters. -/
theorem call_unknown_action (p : ConfigPlugin κ σ) (okMessage : String) (ctx : κ)
    (request : ExtensionPluginRequest) (s : σ)
    (hact : mapLookup request "action" ≠ some "genConfig") :
    ((NewConfigPlugin p).Call okMessage ctx request s).1.Status =
        some { Code := 1,
               Message := "unknown action: " ++ (mapLookup request "action").getD "" } ∧
      ((NewConfigPlugin p).Call okMessage ctx request s).1.Response = none ∧
      ((NewConfigPlugin p).Call okMessage ctx request s).2 = s := by
  rw [call_default _ _ _ _ _ hact]
  exact ⟨rfl, rfl, rfl⟩

/-- Instance of C3: the action `"genConfig "` with a trailing blank is not
the recognised one. -/
theorem call_unknown_action_witness :
    mapLookup (some [("action", "genConfig ")]) "action" ≠ some "genConfig" ∧
      ((NewConfigPlugin samplePlugin).Call "OK" 5 (some [("action", "genConfig ")]) 0).1.Status =
        some { Code := 1, Message := "unknown action: genConfig " } ∧
      ((NewConfigPlugin samplePlugin).Call "OK" 5 (some [("action", "genConfig ")]) 0).1.Response =
        none ∧
      ((NewConfigPlugin samplePlugin).Call "OK" 5 (some [("action", "genConfig ")]) 0).2 = 0 :=
  ⟨by decide,
    call_unknown_action samplePlugin "OK" 5 (some [("action", "genConfig ")]) 0 (by decide)⟩

/-- C4: for every request and every outcome of the wrapped plugin's
`GenerateConfigs` (a map, nil or empty included, or an error), the envelope
`Call` returns has a present `Status`, and its `Response` has at least one
element if and only if the `Status` code is 0. -/
theorem call_status_present_response_iff_ok (p : ConfigPlugin κ σ) (okMessage : String)
    (ctx : κ) (request : ExtensionPluginRequest) (s : σ) :
    ∃ st, ((NewConfigPlugin p).Call okMessage ctx request s).1.Status = some st ∧
      (0 < responseLen ((NewConfigPlugin p).Call okMessage ctx request s).1.Response ↔
        st.Code = 0) := by
  by_cases hact : mapLookup request "action" = some "genConfig"
  · rw [call_genConfig _ _ _ _ _ hact]
    cases ((NewConfigPlugin p).plugin.GenerateConfigs ctx s).1.2 with
    | none => exact ⟨StatusOK okMessage, rfl, by simp [responseLen, StatusOK]⟩
    | some e => exact ⟨_, rfl, by simp [responseLen]⟩
  · rw [call_default _ _ _ _ _ hact]
    exact ⟨_, rfl, by simp [responseLen]⟩

/-- C5: two requests that agree on the lookup of `"action"` (both absent
counts as agreeing) and differ arbitrarily elsewhere, run with possibly
different contexts from possibly different plugin states in which
`GenerateConfigs` returns the same outcome, get equal envelopes from `Call`.
In particular, against a plugin whose outcome does not depend on its state,
issuing the same request a second time, from the state the first `Call` left,
yields the same envelope again. -/
theorem call_envelope_determined_by_action_and_outcome (p : ConfigPlugin κ σ)
    (okMessage : String) :
    (∀ (ctx₁ ctx₂ : κ) (r₁ r₂ : ExtensionPluginRequest) (s₁ s₂ : σ),
        mapLookup r₁ "action" = mapLookup r₂ "action" →
        (p.GenerateConfigs ctx₁ s₁).1 = (p.GenerateConfigs ctx₂ s₂).1 →
        ((NewConfigPlugin p).Call okMessage ctx₁ r₁ s₁).1 =
          ((NewConfigPlugin p).Call okMessage ctx₂ r₂ s₂).1) ∧
      (∀ (ctx : κ) (r : ExtensionPluginRequest) (s : σ),
        (∀ a b : σ, (p.GenerateConfigs ctx a).1 = (p.GenerateConfigs ctx b).1) →
        ((NewConfigPlugin p).Call okMessage ctx r
            ((NewConfigPlugin p).Call okMessage ctx r s).2).1 =
          ((NewConfigPlugin p).Call okMessage ctx r s).1) := by
  have key : ∀ (ctx₁ ctx₂ : κ) (r₁ r₂ : ExtensionPluginRequest) (s₁ s₂ : σ),
      mapLookup r₁ "action" = mapLookup r₂ "action" →
      (p.GenerateConfigs ctx₁ s₁).1 = (p.GenerateConfigs ctx₂ s₂).1 →
      ((NewConfigPlugin p).Call okMessage ctx₁ r₁ s₁).1 =
        ((NewConfigPlugin p).Call okMessage ctx₂ r₂ s₂).1 := by
    intro ctx₁ ctx₂ r₁ r₂ s₁ s₂ hact hout
    have hout2 : ((NewConfigPlugin p).plugin.GenerateConfigs ctx₁ s₁).1 =
        ((NewConfigPlugin p).plugin.GenerateConfigs ctx₂ s₂).1 := hout
    by_cases h₁ : mapLookup r₁ "action" = some "genConfig"
    · have h₂ : mapLookup r₂ "action" = some "genConfig" := hact ▸ h₁
      rw [call_genConfig _ _ _ _ _ h₁, call_genConfig _ _ _ _ _ h₂, hout2]
      cases ((NewConfigPlugin p).plugin.GenerateConfigs ctx₂ s₂).1.2 <;> rfl
    · have h₂ : mapLookup r₂ "action" ≠ some "genConfig" := hact ▸ h₁
      rw [call_default _ _ _ _ _ h₁, call_default _ _ _ _ _ h₂, hact]
  exact ⟨key, fun ctx r s hdet => key ctx ctx r r _ s rfl (hdet _ _)⟩

/-- Instance of C5: two requests with the same action and different other
keys, different contexts, the sample plugin in two even states; and the same
request issued twice in a row against the steady plugin. -/
theorem call_envelope_determined_by_action_and_outcome_witness :
    (mapLookup (some [("action", "genConfig"), ("a", "1")]) "action" =
        mapLookup (some [("b", "2"), ("action", "genConfig"), ("action", "x")]) "action" ∧
      (samplePlugin.GenerateConfigs 1 0).1 = (samplePlugin.GenerateConfigs 2 4).1 ∧
      ((NewConfigPlugin samplePlugin).Call "OK" 1
          (some [("action", "genConfig"), ("a", "1")]) 0).1 =
        ((NewConfigPlugin samplePlugin).Call "OK" 2
          (some [("b", "2"), ("action", "genConfig"), ("action", "x")]) 4).1) ∧
      ((NewConfigPlugin steadyPlugin).Call "OK" 1 (some [("action", "genConfig")])
          ((NewConfigPlugin steadyPlugin).Call "OK" 1 (some [("action", "genConfig")]) 0).2).1 =
        ((NewConfigPlugin steadyPlugin).Call "OK" 1 (some [("action", "genConfig")]) 0).1 :=
  ⟨⟨by decide, by decide,
      (call_envelope_determined_by_action_and_outcome samplePlugin "OK").1 1 2
        (some [("action", "genConfig"), ("a", "1")])
        (some [("b", "2"), ("action", "genConfig"), ("action", "x")]) 0 4
        (by decide) (by decide)⟩,
    (call_envelope_determined_by_action_and_outcome steadyPlugin "OK").2 1
      (some [("action", "genConfig")]) 0 (fun _ _ => rfl)⟩

end CallOutcomes

/-! ## Identity, metadata and liveness -/

section Metadata

variable {κ σ : Type}

/-- C6: for every wrapped plugin, in the state reached after any sequence of
earlier `Call`s (succeeding or failing), `Ping` returns `StatusOK`, whose code
is 0, and leaves the plugin state and the invocation log exactly as they
were: neither `Name` nor `GenerateConfigs` of the plugin is invoked. -/
theorem ping_ok_plugin_untouched (p : ConfigPlugin κ σ) (okMessage : String)
    (calls : List (κ × ExtensionPluginRequest)) (s : σ) (log : List (Invocation κ)) :
    ((NewConfigPlugin (recording p)).Ping okMessage
        (runCalls (NewConfigPlugin (recording p)) okMessage calls (s, log)).2).1 =
        StatusOK okMessage ∧
      ((NewConfigPlugin (recording p)).Ping okMessage
        (runCalls (NewConfigPlugin (recording p)) okMessage calls (s, log)).2).1.Code = 0 ∧
      ((NewConfigPlugin (recording p)).Ping okMessage
        (runCalls (NewConfigPlugin (recording p)) okMessage calls (s, log)).2).2 =
        (runCalls (NewConfigPlugin (recording p)) okMessage calls (s, log)).2 :=
  ⟨rfl, rfl, rfl⟩

/-- C7: for every plugin `p`, `NewConfigPlugin(p).Name()` is `p.Name()`: the
same string, whatever it is (the empty string and multi-byte text included),
and the same effect on the plugin state. -/
theorem name_eq_plugin_name (p : ConfigPlugin κ σ) (s : σ) :
    (NewConfigPlugin p).Name s = p.Name s :=
  rfl

/-- C8: for every wrapped plugin, `RegistryName` returns the fixed string
`"config"` and leaves the plugin untouched, in the state reached after any
sequence of earlier `Call`s: the result depends neither on the plugin's name,
nor on what its `GenerateConfigs` returns, nor on the calls made before. -/
theorem registryName_config (p : ConfigPlugin κ σ) (okMessage : String)
    (calls : List (κ × ExtensionPluginRequest)) (s : σ) :
    (NewConfigPlugin p).RegistryName (runCalls (NewConfigPlugin p) okMessage calls s).2 =
      ("config", (runCalls (NewConfigPlugin p) okMessage calls s).2) :=
  rfl

/-- C9: for every wrapped plugin, in the state reached after any sequence of
earlier `Call`s, `Routes` returns an empty route table, a response slice with
zero elements, and leaves the plugin untouched. -/
theorem routes_empty (p : ConfigPlugin κ σ) (okMessage : String)
    (calls : List (κ × ExtensionPluginRequest)) (s : σ) :
    ((NewConfigPlugin p).Routes (runCalls (NewConfigPlugin p) okMessage calls s).2).1 =
        some [] ∧
      responseLen
        ((NewConfigPlugin p).Routes (runCalls (NewConfigPlugin p) okMessage calls s).2).1 = 0 ∧
      ((NewConfigPlugin p).Routes (runCalls (NewConfigPlugin p) okMessage calls s).2).2 =
        (runCalls (NewConfigPlugin p) okMessage calls s).2 :=
  ⟨rfl, rfl, rfl⟩

end Metadata

/-! ## Invocations of the wrapped plugin -/

section Invocations

variable {κ σ : Type}

/-- C10: with the wrapped plugin instrumented to log its invocations, one
`Call` whose action is `"genConfig"` runs `GenerateConfigs` exactly once, with
the context the `Call` received and on the plugin state current at that
moment (the log grows by that one entry and the plugin state is the one that
run left, whether it succeeded or failed), and a `Call` with any other or no
action leaves plugin state and log unchanged.  Hence `k` successive
`"genConfig"` calls add exactly `k` `GenerateConfigs` entries, one per call,
in order, each with its own context. -/
theorem call_invokes_generate_once (p : ConfigPlugin κ σ) (okMessage : String) (s : σ)
    (log : List (Invocation κ)) :
    (∀ (ctx : κ) (request : ExtensionPluginRequest),
        ((NewConfigPlugin (recording p)).Call okMessage ctx request (s, log)).2 =
          if mapLookup request "action" = some "genConfig" then
            ((p.GenerateConfigs ctx s).2, log ++ [Invocation.generateConfigs ctx])
          else (s, log)) ∧
      (∀ calls : List (κ × ExtensionPluginRequest),
        (∀ c ∈ calls, mapLookup c.2 "action" = some "genConfig") →
        (runCalls (NewConfigPlugin (recording p)) okMessage calls (s, log)).2.2 =
            log ++ calls.map (fun c => Invocation.generateConfigs c.1) ∧
          generateCount (runCalls (NewConfigPlugin (recording p)) okMessage calls (s, log)).2.2 =
            generateCount log + calls.length) := by
  refine ⟨fun ctx request => call_recording_snd p okMessage ctx request s log, ?_⟩
  intro calls hall
  have hfilter : calls.filter (fun c => decide (mapLookup c.2 "action" = some "genConfig")) =
      calls := by
    rw [List.filter_eq_self]
    intro c hc
    simpa using hall c hc
  have hlog := runCalls_recording_log p okMessage calls s log
  rw [hfilter] at hlog
  refine ⟨hlog, ?_⟩
  rw [hlog, generateCount_append, generateCount_map]

/-- Instance of C10: three successive `"genConfig"` calls with contexts 7, 8
and 9 on the sample plugin, the second of which fails, log three
invocations. -/
theorem call_invokes_generate_once_witness :
    (∀ c ∈ [(7, some [("action", "genConfig")]), (8, some [("action", "genConfig"), ("k", "v")]),
          ((9 : Nat), (some [("action", "genConfig")] : ExtensionPluginRequest))],
        mapLookup c.2 "action" = some "genConfig") ∧
      (runCalls (NewConfigPlugin (recording samplePlugin)) "OK"
          [(7, some [("action", "genConfig")]), (8, some [("action", "genConfig"), ("k", "v")]),
            (9, some [("action", "genConfig")])] (0, [])).2.2 =
        [] ++ [Invocation.generateConfigs 7, Invocation.generateConfigs 8,
          Invocation.generateConfigs 9] ∧
      generateCount (runCalls (NewConfigPlugin (recording samplePlugin)) "OK"
          [(7, some [("action", "genConfig")]), (8, some [("action", "genConfig"), ("k", "v")]),
            (9, some [("action", "genConfig")])] (0, [])).2.2 =
        generateCount ([] : List (Invocation Nat)) + 3 :=
  ⟨by decide,
    (call_invokes_generate_once samplePlugin "OK" 0 []).2
      [(7, some [("action", "genConfig")]), (8, some [("action", "genConfig"), ("k", "v")]),
        (9, some [("action", "genConfig")])] (by decide)⟩

end Invocations

end Osquery
